import Mathlib

/-!
# Verification of the durable-functions replay driver (`orchestrator.py`)

Shallow embedding of `src/azure/durable_functions/orchestrator.py`:
the `Orchestrator` class, its `handle` driver loop, `_generate_next`,
`_add_to_actions`, `_reset_timestamp` and `create`.

The collaborating model classes (`Task`, `TaskSet`, `OrchestratorState`,
`DurableOrchestrationContext`, `HistoryEventType`) and the suspension
predicate `should_suspend` are part of this repository but their sources are
not available here; those definitions are modelled from the specification
(sections 3, 4.1, 4.2, 4.3, 4.5) and are marked as such in their doc
comments.

Python generators are embedded as well-founded trees (`Gen`): a generator is
either stopped (`StopIteration` with a return value), raising an exception,
or suspended at a `yield` with a continuation that consumes the next
`send`/`throw` input.  Simulated timestamps are embedded as naturals
(`dateutil` parsing of timestamp strings is order-preserving on valid
inputs, so comparisons of parsed datetimes become comparisons of naturals).
-/

namespace Durable

/-- A serialized payload value (user results, outputs).  Payload
serialization is out of scope of the core (spec section 1), so values are
kept abstract as strings. -/
abbrev Value := String

/-- An action descriptor: what to tell the host to schedule.  Construction
of individual descriptors is out of scope (spec section 1), so they are kept
abstract. -/
abbrev Action := String

/-- Modelled from the spec: the event-type enum of `models.history`
(`HistoryEventType`), whose source is not under `src/`.  Spec section 3 lists
OrchestratorStarted, TaskScheduled, TaskCompleted, TaskFailed, TimerFired,
EventRaised. -/
inductive HistoryEventType where
  | OrchestratorStarted
  | TaskScheduled
  | TaskCompleted
  | TaskFailed
  | TimerFired
  | EventRaised
  deriving DecidableEq, Repr

/-- Modelled from the spec: one record of the append-only history log
(spec section 3): event type, timestamp, processed flag, plus type-specific
payload fields (kept abstract as an optional value).  The timestamp string
of the source is embedded as a natural number. -/
structure HistoryEvent where
  EventType : HistoryEventType
  Timestamp : Nat
  IsProcessed : Bool
  Payload : Option Value
  deriving DecidableEq, Repr

/-- The three outcome states of an operation handle (spec section 3:
`PENDING`, `COMPLETED(result)`, `FAULTED(error)`). -/
inductive TaskState where
  | pending
  | completed
  | faulted
  deriving DecidableEq, Repr

/-- Modelled from the spec: a single operation handle (`models.Task`, source
not under `src/`).  Spec section 3: it carries outcome state, a result
value, a fault payload, and the originating action descriptor (section 4.2:
"a handle is constructed bound to an action descriptor"). -/
structure Task where
  state : TaskState
  action : Action
  result : Value
  exception : Value
  deriving DecidableEq, Repr

/-- `Task.isFaulted`, as read by the driver (`generation_state.isFaulted`). -/
def Task.isFaulted (t : Task) : Bool := t.state = TaskState.faulted

/-- Modelled from the spec: a batched operation handle (`models.TaskSet`,
source not under `src/`).  Spec section 3: an ordered collection evaluated
together, carrying the union of member actions; it resolves to an aggregate
state with a result or fault. -/
structure TaskSet where
  state : TaskState
  actions : List Action
  result : Value
  exception : Value
  deriving DecidableEq, Repr

/-- `TaskSet.isFaulted`, as read by the driver. -/
def TaskSet.isFaulted (ts : TaskSet) : Bool := ts.state = TaskState.faulted

/-- A value yielded by the workflow generator to the driver: a single
operation handle or a batch (spec section 4.3: the suspension predicate's
domain is pending/resolved handles and batches). -/
inductive YieldedValue where
  | task (t : Task)
  | taskSet (ts : TaskSet)
  deriving DecidableEq, Repr

namespace YieldedValue

/-- The `isFaulted` flag of the yielded value, as tested by the driver's
`isinstance(...) and generation_state.isFaulted` condition. -/
def isFaulted : YieldedValue → Bool
  | task t => t.isFaulted
  | taskSet ts => ts.isFaulted

/-- The `.exception` attribute the driver throws back into the generator. -/
def exc : YieldedValue → Value
  | task t => t.exception
  | taskSet ts => ts.exception

/-- The `.result` attribute `_generate_next` sends back into the
generator. -/
def res : YieldedValue → Value
  | task t => t.result
  | taskSet ts => ts.result

end YieldedValue

/-- Modelled from the spec: the suspension predicate (`tasks.should_suspend`,
source not under `src/`).  Spec section 4.3: returns true exactly when the
most recently produced value is a PENDING operation handle or batch; false
for already resolved (COMPLETED or FAULTED) values. -/
def should_suspend : YieldedValue → Bool
  | YieldedValue.task t => t.state = TaskState.pending
  | YieldedValue.taskSet ts => ts.state = TaskState.pending

/-- The input the driver feeds into a suspended generator: `generator.send`
of a resolved result, or `generator.throw` of a recorded fault. -/
inductive GenInput where
  | send (v : Value)
  | throw (e : Value)
  deriving DecidableEq, Repr

/-- A Python generator, embedded as a well-founded tree after its first
`send(None)`: it is suspended at a `yield` with a continuation, has stopped
(`StopIteration` carrying the return value, `none` for a bare return), or
has raised an exception (rendered as a string, as `str(e)` does). -/
inductive Gen where
  | yielded (v : YieldedValue) (k : GenInput → Gen)
  | stopped (value : Option Value)
  | raised (e : Value)

/-- Modelled from the spec: the per-invocation mutable context
(`models.DurableOrchestrationContext`, source not under `src/`).  Spec
section 3 (ExecutionContext): ordered history events, pointer to the current
decision-started event, derived current simulated time (or absent),
accumulated action batches. -/
structure DurableOrchestrationContext where
  histories : List HistoryEvent
  decision_started_event : HistoryEvent
  current_utc_datetime : Option Nat
  actions : List (List Action)
  deriving DecidableEq, Repr

/-- The host-supplied context blob.  It either parses into history data or
is malformed (unparseable), in which case the Python constructor raises. -/
inductive ContextBlob where
  | malformed
  | wellFormed (histories : List HistoryEvent)
  deriving DecidableEq, Repr

/-- Modelled from the spec: parsing the context string into the
per-invocation context (the `DurableOrchestrationContext` constructor,
source not under `src/`).  Spec section 4.1: `histories` populated in the
order received and `decision_started_event` set to the first
OrchestratorStarted event; the initial simulated time is derived from that
event's timestamp (section 3: always derived strictly from history).  An
unparseable blob, or one with no OrchestratorStarted event, raises — embedded
as `Except.error`. -/
def DurableOrchestrationContext.parse :
    ContextBlob → Except String DurableOrchestrationContext
  | ContextBlob.malformed => Except.error "unparseable context string"
  | ContextBlob.wellFormed hs =>
    match hs.find? (fun e => e.EventType = HistoryEventType.OrchestratorStarted) with
    | none => Except.error "no OrchestratorStarted event in history"
    | some e => Except.ok ⟨hs, e, some e.Timestamp, []⟩

/-- Modelled from the spec: the decision model (`models.OrchestratorState`,
source not under `src/`).  Spec section 3: `is_done`, `output`, `actions`,
`custom_status`, `error`. -/
structure OrchestratorState where
  is_done : Bool
  output : Option Value
  actions : List (List Action)
  custom_status : Option Value
  error : Option Value
  deriving DecidableEq, Repr

/-- Render an optional value as JSON-ish text (`null` or a quoted string;
payload escaping is out of scope, spec section 1). -/
def renderOpt : Option Value → String
  | none => "null"
  | some v => "\x22" ++ v ++ "\x22"

/-- Render a batch of action descriptors. -/
def renderBatch (b : List Action) : String :=
  "[" ++ String.intercalate "," (b.map (fun a => "\x22" ++ a ++ "\x22")) ++ "]"

/-- Modelled from the spec: `OrchestratorState.to_json_string` (source not
under `src/`).  Spec section 4.5: a pure data-to-wire mapping with no
behavior beyond serialization. -/
def OrchestratorState.to_json_string (s : OrchestratorState) : String :=
  "\x7b\x22isDone\x22:" ++ (if s.is_done then "true" else "false")
    ++ ",\x22output\x22:" ++ renderOpt s.output
    ++ ",\x22actions\x22:["
    ++ String.intercalate "," (s.actions.map renderBatch)
    ++ "],\x22customStatus\x22:" ++ renderOpt s.custom_status
    ++ ",\x22error\x22:" ++ renderOpt s.error ++ "\x7d"

/-- A workflow function: given the per-invocation context it yields a
generator (the state after the driver's first `send(None)`). -/
abbrev Workflow := DurableOrchestrationContext → Gen

/-- The `Orchestrator` class: it holds the user generator function `fn` and
`customStatus` (initialized to `None` in `__init__` and never written in the
source). -/
structure Orchestrator where
  fn : Workflow
  customStatus : Option Value

namespace Orchestrator

/-- `Orchestrator._add_to_actions`: append the yielded value's action
descriptor(s) as one batch — `[generation_state._action]` for a `Task`,
`generation_state.actions` for a `TaskSet`.  The `hasattr` guards of the
source hold for every handle since a handle is constructed bound to its
action descriptor (spec section 4.2). -/
def add_to_actions (d : DurableOrchestrationContext) :
    YieldedValue → DurableOrchestrationContext
  | YieldedValue.task t => { d with actions := d.actions ++ [[t.action]] }
  | YieldedValue.taskSet ts => { d with actions := d.actions ++ [ts.actions] }

/-- `Orchestrator._reset_timestamp`: among ALL history events, keep those of
type OrchestratorStarted whose timestamp is strictly greater than the
current decision-started event's timestamp; if none, set the current
simulated time to `None`; otherwise the first such event becomes the new
decision-started event and the current simulated time becomes its
timestamp. -/
def reset_timestamp (d : DurableOrchestrationContext) :
    DurableOrchestrationContext :=
  let last_timestamp := d.decision_started_event.Timestamp
  let decision_started_events := d.histories.filter
    (fun e => e.EventType = HistoryEventType.OrchestratorStarted
      ∧ last_timestamp < e.Timestamp)
  match decision_started_events with
  | [] => { d with current_utc_datetime := none }
  | e :: _ =>
    { d with decision_started_event := e, current_utc_datetime := some e.Timestamp }

/-- The `while not suspended` loop of `Orchestrator.handle` together with its
surrounding `try`/`except`: at each step `_add_to_actions` records the
yielded value's batch; a suspending value produces the not-done decision; a
faulted value is thrown back into the generator (no `_reset_timestamp` on
that step); otherwise `_reset_timestamp` runs and `_generate_next` sends
`generation_state.result` in.  `StopIteration` produces the done decision
with the generator's return value; any other escaping exception produces the
failed decision with `error = str(e)`. -/
def driverLoop (cs : Option Value) :
    DurableOrchestrationContext → Gen → OrchestratorState
  | d, Gen.stopped v =>
    { is_done := true, output := v, actions := d.actions,
      custom_status := cs, error := none }
  | d, Gen.raised e =>
    { is_done := false, output := none, actions := d.actions,
      custom_status := cs, error := some e }
  | d, Gen.yielded v k =>
    let d1 := add_to_actions d v
    if should_suspend v then
      { is_done := false, output := none, actions := d1.actions,
        custom_status := cs, error := none }
    else if v.isFaulted then
      driverLoop cs d1 (k (GenInput.throw v.exc))
    else
      driverLoop cs (reset_timestamp d1) (k (GenInput.send v.res))

/-- `Orchestrator.handle` up to serialization: construct the context (note:
OUTSIDE the `try` block — a parse failure escapes as an exception, embedded
as `Except.error`), start the generator, run the driver loop. -/
def handleState (o : Orchestrator) (context_string : ContextBlob) :
    Except String OrchestratorState :=
  match DurableOrchestrationContext.parse context_string with
  | Except.error e => Except.error e
  | Except.ok d => Except.ok (driverLoop o.customStatus d (o.fn d))

/-- `Orchestrator.handle`: the serialized decision
(`orchestration_state.to_json_string()`), or the escaping exception. -/
def handle (o : Orchestrator) (context_string : ContextBlob) :
    Except String String :=
  (o.handleState context_string).map OrchestratorState.to_json_string

/-- `Orchestrator.__init__`: `customStatus` starts as `None`. -/
def new (fn : Workflow) : Orchestrator := ⟨fn, none⟩

/-- `Orchestrator.create`: `lambda context: Orchestrator(fn).handle(context)` —
a fresh instance per invocation. -/
def create (fn : Workflow) : ContextBlob → Except String String :=
  fun context => (Orchestrator.new fn).handle context

end Orchestrator

/-! ## Concrete scenario fixtures (spec section 8 example scenarios) -/

/-- The OrchestratorStarted event at simulated time 0 (t0). -/
def eStarted0 : HistoryEvent :=
  ⟨HistoryEventType.OrchestratorStarted, 0, false, none⟩

/-- A pending call handle bound to the descriptor "callAction". -/
def pendingCall : Task := ⟨TaskState.pending, "callAction", "", ""⟩

/-- The same call, already completed in history with result "42". -/
def completedCall : Task := ⟨TaskState.completed, "callAction", "42", ""⟩

/-- The same call, failed in history with error "boom". -/
def faultedCall : Task := ⟨TaskState.faulted, "callAction", "", "boom"⟩

/-- Scenario 1 history: only OrchestratorStarted@t0. -/
def ctxBlob1 : ContextBlob := ContextBlob.wellFormed [eStarted0]

/-- Scenario 1 workflow: immediately yields one pending call. -/
def wf1 : Workflow := fun _ =>
  Gen.yielded (YieldedValue.task pendingCall) (fun _ => Gen.stopped none)

/-- Scenario 2 history: OrchestratorStarted@t0, TaskScheduled, TaskCompleted
with result "42". -/
def ctxBlob2 : ContextBlob := ContextBlob.wellFormed
  [eStarted0,
   ⟨HistoryEventType.TaskScheduled, 1, false, none⟩,
   ⟨HistoryEventType.TaskCompleted, 2, false, some "42"⟩]

/-- The continuation of an `await` whose result is returned and whose
exceptions are unhandled: a sent value becomes the generator's return value;
a thrown fault propagates uncaught. -/
def kAwait : GenInput → Gen
  | GenInput.send v => Gen.stopped (some v)
  | GenInput.throw e => Gen.raised e

/-- Scenario 2/3 workflow: awaits the one call and returns its result; an
exception delivered at that await point is not handled and propagates. -/
def wfAwaitOne (t : Task) : Workflow := fun _ =>
  Gen.yielded (YieldedValue.task t) kAwait

/-- Scenario 3 history: OrchestratorStarted@t0, TaskScheduled, TaskFailed
with error "boom". -/
def ctxBlob3 : ContextBlob := ContextBlob.wellFormed
  [eStarted0,
   ⟨HistoryEventType.TaskScheduled, 1, false, none⟩,
   ⟨HistoryEventType.TaskFailed, 2, false, some "boom"⟩]

/-- A workflow that yields the SAME completed handle at two successive
steps (`yield call; yield call; return`) — each yield is a fresh inspection
of the one handle. -/
def wfYieldTwice (t : Task) : Workflow := fun _ =>
  Gen.yielded (YieldedValue.task t) (fun _ =>
    Gen.yielded (YieldedValue.task t) (fun _ => Gen.stopped none))

/-- The decision of scenario 1: suspended on one pending call. -/
def decision1 : OrchestratorState :=
  ⟨false, none, [["callAction"]], none, none⟩

/-- The parsed context of scenario 3 (what
`DurableOrchestrationContext.parse ctxBlob3` yields). -/
def dCtx3 : DurableOrchestrationContext :=
  ⟨[eStarted0,
    ⟨HistoryEventType.TaskScheduled, 1, false, none⟩,
    ⟨HistoryEventType.TaskFailed, 2, false, some "boom"⟩],
   eStarted0, some 0, []⟩

/-- A context whose only OrchestratorStarted event later than the current
decision point carries `IsProcessed = true`. -/
def ctxProcessed : DurableOrchestrationContext :=
  ⟨[eStarted0, ⟨HistoryEventType.OrchestratorStarted, 5, true, none⟩],
   eStarted0, some 0, []⟩

/-- A context with an unprocessed OrchestratorStarted event at time 7 after
the decision point at time 0. -/
def dW7 : DurableOrchestrationContext :=
  ⟨[eStarted0, ⟨HistoryEventType.OrchestratorStarted, 7, false, none⟩],
   eStarted0, some 0, []⟩

/-! ## Derived notions used by the theorems -/

/-- The one action batch `_add_to_actions` appends for a yielded value:
`[t._action]` for a single handle, the member-action list for a batch. -/
def batchOf : YieldedValue → List Action
  | YieldedValue.task t => [t.action]
  | YieldedValue.taskSet ts => ts.actions

/-- The sequence of yielded values the driver loop processes, in processing
order: it follows exactly the control flow of `driverLoop` (which depends
only on the yielded values, never on the context), ending at a suspension,
a stop, or an uncaught exception. -/
def stepsOf : Gen → List YieldedValue
  | Gen.stopped _ => []
  | Gen.raised _ => []
  | Gen.yielded v k =>
    if should_suspend v then [v]
    else if v.isFaulted then v :: stepsOf (k (GenInput.throw v.exc))
    else v :: stepsOf (k (GenInput.send v.res))

/-- A context is time-sourced when its decision-started pointer is an
OrchestratorStarted event of its own history and its current simulated time,
when present, is that event's timestamp. -/
def timeFromHistory (d : DurableOrchestrationContext) : Prop :=
  d.decision_started_event ∈ d.histories ∧
  d.decision_started_event.EventType = HistoryEventType.OrchestratorStarted ∧
  ∀ t, d.current_utc_datetime = some t → t = d.decision_started_event.Timestamp

/-! ## Helper lemmas -/

theorem add_to_actions_actions (d : DurableOrchestrationContext)
    (v : YieldedValue) :
    (Orchestrator.add_to_actions d v).actions = d.actions ++ [batchOf v] := by
  cases v <;> rfl

theorem add_to_actions_time (d : DurableOrchestrationContext)
    (v : YieldedValue) :
    (Orchestrator.add_to_actions d v).current_utc_datetime
        = d.current_utc_datetime
      ∧ (Orchestrator.add_to_actions d v).decision_started_event
        = d.decision_started_event
      ∧ (Orchestrator.add_to_actions d v).histories = d.histories := by
  cases v <;> exact ⟨rfl, rfl, rfl⟩

theorem reset_timestamp_actions (d : DurableOrchestrationContext) :
    (Orchestrator.reset_timestamp d).actions = d.actions := by
  unfold Orchestrator.reset_timestamp
  dsimp only
  split <;> rfl

/-- A faulted handle never satisfies the suspension predicate (faulted is a
resolved state, spec section 4.3). -/
theorem faulted_not_suspend (v : YieldedValue) (h : v.isFaulted = true) :
    should_suspend v = false := by
  cases v with
  | task t =>
    cases ht : t.state <;>
      simp_all [YieldedValue.isFaulted, Task.isFaulted, should_suspend]
  | taskSet ts =>
    cases ht : ts.state <;>
      simp_all [YieldedValue.isFaulted, TaskSet.isFaulted, should_suspend]

/-- Every decision the loop can build satisfies the done/error/output
exclusivity invariant, whatever the generator and accumulated context. -/
theorem driverLoop_inv (cs : Option Value) (g : Gen) :
    ∀ d : DurableOrchestrationContext,
      ((Orchestrator.driverLoop cs d g).is_done = true →
        (Orchestrator.driverLoop cs d g).error = none) ∧
      ((Orchestrator.driverLoop cs d g).error ≠ none →
        (Orchestrator.driverLoop cs d g).is_done = false ∧
        (Orchestrator.driverLoop cs d g).output = none) := by
  induction g with
  | stopped v => intro d; simp [Orchestrator.driverLoop]
  | raised e => intro d; simp [Orchestrator.driverLoop]
  | yielded v k ih =>
    intro d
    by_cases hs : should_suspend v = true
    · simp [Orchestrator.driverLoop, hs]
    · by_cases hf : v.isFaulted = true
      · simpa [Orchestrator.driverLoop, hs, hf] using
          ih (GenInput.throw v.exc) (Orchestrator.add_to_actions d v)
      · simpa [Orchestrator.driverLoop, hs, hf] using
          ih (GenInput.send v.res)
            (Orchestrator.reset_timestamp (Orchestrator.add_to_actions d v))

/-! ## Claims -/

/-- C1: whenever the driver loop of `Orchestrator.handle` reaches a step
whose yielded value satisfies the suspension predicate, the returned
decision has `is_done = false`, no output, no error, the orchestrator's
custom status, and exactly the action batches accumulated so far (the
context's batches extended by this step's batch, in yield order). -/
theorem c1_suspend_decision (cs : Option Value)
    (d : DurableOrchestrationContext) (v : YieldedValue) (k : GenInput → Gen)
    (h : should_suspend v = true) :
    Orchestrator.driverLoop cs d (Gen.yielded v k) =
      { is_done := false, output := none,
        actions := d.actions ++ [batchOf v],
        custom_status := cs, error := none } := by
  simp [Orchestrator.driverLoop, h, add_to_actions_actions]

/-- C1 witness, spec example scenario 1: history = [OrchestratorStarted@t0]
only and a workflow that immediately yields one pending call produce the
decision `is_done = false`, `actions = [[callAction]]`, no error. -/
theorem c1_suspend_decision_witness :
    should_suspend (YieldedValue.task pendingCall) = true ∧
    Orchestrator.driverLoop none ⟨[eStarted0], eStarted0, some 0, []⟩
        (Gen.yielded (YieldedValue.task pendingCall)
          (fun _ => Gen.stopped none)) =
      { is_done := false, output := none, actions := [["callAction"]],
        custom_status := none, error := none } :=
  ⟨by decide,
   (c1_suspend_decision none ⟨[eStarted0], eStarted0, some 0, []⟩
      (YieldedValue.task pendingCall) (fun _ => Gen.stopped none)
      (by decide)).trans rfl⟩

/-- C2: every decision `Orchestrator.handle` returns — from any of the three
construction sites (suspension, normal completion, failure), for every
context string and workflow — satisfies the invariant: `is_done = true`
implies `error` absent, and `error` present implies `is_done = false` and
`output` absent. -/
theorem c2_decision_invariant (o : Orchestrator) (s : ContextBlob)
    (st : OrchestratorState) (h : o.handleState s = Except.ok st) :
    (st.is_done = true → st.error = none) ∧
    (st.error ≠ none → st.is_done = false ∧ st.output = none) := by
  unfold Orchestrator.handleState at h
  cases hp : DurableOrchestrationContext.parse s with
  | error e => rw [hp] at h; exact absurd h (by simp)
  | ok d =>
    rw [hp] at h
    have hst : st = Orchestrator.driverLoop o.customStatus d (o.fn d) :=
      (Except.ok.inj h).symm
    rw [hst]
    exact driverLoop_inv o.customStatus (o.fn d) d

/-- C2 witness: the invariant instantiated at scenario 1's concrete
decision. -/
theorem c2_decision_invariant_witness :
    (decision1.is_done = true → decision1.error = none) ∧
    (decision1.error ≠ none →
      decision1.is_done = false ∧ decision1.output = none) :=
  c2_decision_invariant (Orchestrator.new wf1) ctxBlob1 decision1 rfl

/-- C3 counterexample: on scenario 2's history (the awaited call already
completed with result "42") the decision is done with output "42" and no
error as claimed, but its actions list is `[[callAction]]`, NOT empty: the
driver appends the completed call's descriptor before resuming. -/
theorem c3_counterexample :
    (Orchestrator.new (wfAwaitOne completedCall)).handleState ctxBlob2 =
      Except.ok ⟨true, some "42", [["callAction"]], none, none⟩ ∧
    ([["callAction"]] : List (List Action)) ≠ [] :=
  ⟨rfl, by decide⟩

/-- C3 (amended): for scenario 2's history and a workflow that awaits the
completed call and returns its result, `Orchestrator.handle` produces a
decision with `is_done = true`, `output = "42"`, no error, and
`actions = [[callAction]]` — the already-completed call's action descriptor
is still emitted, because `_add_to_actions` records every yielded handle's
descriptor whether or not it is already resolved in history. -/
theorem c3_completed_run :
    (Orchestrator.new (wfAwaitOne completedCall)).handleState ctxBlob2 =
      Except.ok ⟨true, some "42", [["callAction"]], none, none⟩ ∧
    (Orchestrator.new (wfAwaitOne completedCall)).handle ctxBlob2 =
      Except.ok (OrchestratorState.to_json_string
        ⟨true, some "42", [["callAction"]], none, none⟩) :=
  ⟨rfl, rfl⟩

/-- C4 counterexample: on scenario 3's history (TaskFailed with error
"boom") and an unhandled re-injected fault, the decision has
`is_done = false`, `error = "boom"` and no output as claimed, but its
actions list is `[[callAction]]`, NOT empty: the faulted call's descriptor
was appended before the fault was thrown back. -/
theorem c4_counterexample :
    (Orchestrator.new (wfAwaitOne faultedCall)).handleState ctxBlob3 =
      Except.ok ⟨false, none, [["callAction"]], none, some "boom"⟩ ∧
    ([["callAction"]] : List (List Action)) ≠ [] :=
  ⟨rfl, by decide⟩

/-- C4 (amended): for scenario 3's history and a workflow with no handler
for the re-injected fault, `Orchestrator.handle` produces a decision with
`is_done = false`, `error = "boom"` (the rendering `str(e)` of the uncaught
failure), no output, and `actions = [[callAction]]` — the faulted call's
action descriptor is emitted by `_add_to_actions` before the fault is
re-injected. -/
theorem c4_faulted_run :
    (Orchestrator.new (wfAwaitOne faultedCall)).handleState ctxBlob3 =
      Except.ok ⟨false, none, [["callAction"]], none, some "boom"⟩ ∧
    (Orchestrator.new (wfAwaitOne faultedCall)).handle ctxBlob3 =
      Except.ok (OrchestratorState.to_json_string
        ⟨false, none, [["callAction"]], none, some "boom"⟩) :=
  ⟨rfl, rfl⟩

/-- C5 counterexample: a workflow that yields the SAME completed handle at
two successive steps gets that handle's action descriptor emitted TWICE in
the output decision — the emission is per inspected step, not once per
handle per invocation. -/
theorem c5_counterexample :
    (Orchestrator.new (wfYieldTwice completedCall)).handleState ctxBlob2 =
      Except.ok ⟨true, none, [["callAction"], ["callAction"]], none, none⟩ ∧
    ([["callAction"], ["callAction"]] : List (List Action)).count
        ["callAction"] = 2 :=
  ⟨rfl, by decide⟩

/-- C5 (amended): within one invocation, `_add_to_actions` emits exactly one
action batch per driver step, in processing (yield) order: the decision's
actions are the initially accumulated batches followed by `batchOf v` for
each processed yielded value `v`, exactly once per step.  A handle yielded
at exactly one step therefore contributes its descriptor exactly once; a
handle yielded at several steps contributes one copy per step (see the
counterexample). -/
theorem c5_one_batch_per_step (cs : Option Value) (g : Gen) :
    ∀ d : DurableOrchestrationContext,
      (Orchestrator.driverLoop cs d g).actions
        = d.actions ++ (stepsOf g).map batchOf := by
  induction g with
  | stopped v => intro d; simp [Orchestrator.driverLoop, stepsOf]
  | raised e => intro d; simp [Orchestrator.driverLoop, stepsOf]
  | yielded v k ih =>
    intro d
    by_cases hs : should_suspend v = true
    · simp [Orchestrator.driverLoop, stepsOf, hs, add_to_actions_actions]
    · by_cases hf : v.isFaulted = true
      · have h1 := ih (GenInput.throw v.exc) (Orchestrator.add_to_actions d v)
        simp [Orchestrator.driverLoop, stepsOf, hs, hf, h1,
          add_to_actions_actions]
      · have h1 := ih (GenInput.send v.res)
          (Orchestrator.reset_timestamp (Orchestrator.add_to_actions d v))
        simp [Orchestrator.driverLoop, stepsOf, hs, hf, h1,
          reset_timestamp_actions, add_to_actions_actions]

/-- C6: when the yielded value is a faulted handle or batch, the driver
re-injects the recorded fault into the generator — the invocation continues
exactly as the continuation of THAT yield applied to `throw` of the
recorded exception — and does so without re-anchoring simulated time: the
context passed on differs from the incoming one only in the accumulated
actions (`current_utc_datetime` and `decision_started_event` unchanged, no
`_reset_timestamp` on that step). -/
theorem c6_fault_reinjection (cs : Option Value)
    (d : DurableOrchestrationContext) (v : YieldedValue) (k : GenInput → Gen)
    (h : v.isFaulted = true) :
    Orchestrator.driverLoop cs d (Gen.yielded v k) =
      Orchestrator.driverLoop cs (Orchestrator.add_to_actions d v)
        (k (GenInput.throw v.exc)) ∧
    (Orchestrator.add_to_actions d v).current_utc_datetime
      = d.current_utc_datetime ∧
    (Orchestrator.add_to_actions d v).decision_started_event
      = d.decision_started_event := by
  refine ⟨?_, (add_to_actions_time d v).1, (add_to_actions_time d v).2.1⟩
  simp [Orchestrator.driverLoop, faulted_not_suspend v h, h]

/-- C7 counterexample: in `ctxProcessed` the ONLY OrchestratorStarted event
after the current decision point is marked `IsProcessed = true`; no
unprocessed one exists, yet `_reset_timestamp` still selects it and sets the
simulated time to its timestamp instead of the absent marker — the source
never consults the `IsProcessed` flag. -/
theorem c7_counterexample :
    (Orchestrator.reset_timestamp ctxProcessed).current_utc_datetime
        = some 5 ∧
    (Orchestrator.reset_timestamp ctxProcessed).current_utc_datetime
        ≠ none ∧
    ctxProcessed.histories.filter
      (fun e => e.EventType = HistoryEventType.OrchestratorStarted
        ∧ e.IsProcessed = false
        ∧ ctxProcessed.decision_started_event.Timestamp < e.Timestamp) = [] :=
  ⟨by decide, by decide, by decide⟩

/-- C7 (amended): `_reset_timestamp` selects the next OrchestratorStarted
event whose timestamp is strictly after the current decision-started
event's, searching among ALL history events (the `IsProcessed` flag is not
consulted); if none exists the current simulated time becomes the absent
marker (`None`) — not the last known time — and the decision-started event
is left unchanged; otherwise the first such event (in history order, i.e.
`find?` of the condition) becomes the new decision-started event and the
current simulated time becomes its timestamp. -/
theorem c7_reset_timestamp_selection (d : DurableOrchestrationContext) :
    ((∀ e ∈ d.histories,
        e.EventType = HistoryEventType.OrchestratorStarted →
        e.Timestamp ≤ d.decision_started_event.Timestamp) →
      (Orchestrator.reset_timestamp d).current_utc_datetime = none ∧
      (Orchestrator.reset_timestamp d).decision_started_event
        = d.decision_started_event) ∧
    (∀ e, d.histories.find?
        (fun x => x.EventType = HistoryEventType.OrchestratorStarted
          ∧ d.decision_started_event.Timestamp < x.Timestamp) = some e →
      (Orchestrator.reset_timestamp d).decision_started_event = e ∧
      (Orchestrator.reset_timestamp d).current_utc_datetime
        = some e.Timestamp) := by
  constructor
  · intro hall
    unfold Orchestrator.reset_timestamp
    dsimp only
    split
    · exact ⟨rfl, rfl⟩
    · next e tail heq =>
      exfalso
      have he := heq ▸ List.mem_cons_self e tail
      have h2 := List.mem_filter.mp he
      have h3 := h2.2
      simp only [decide_eq_true_eq] at h3
      exact absurd (hall e h2.1 h3.1) (Nat.not_le.mpr h3.2)
  · intro e hfind
    rw [← List.filter_head?] at hfind
    unfold Orchestrator.reset_timestamp
    dsimp only
    split
    · next heq =>
      rw [heq] at hfind
      exact absurd hfind (by simp)
    · next e0 tail heq =>
      rw [heq] at hfind
      simp only [List.head?_cons, Option.some.injEq] at hfind
      subst hfind
      exact ⟨rfl, rfl⟩

/-- C7 witness: with an unprocessed OrchestratorStarted@7 after the decision
point at 0, the query finds it, it becomes the decision-started event and
the simulated time becomes 7. -/
theorem c7_reset_timestamp_selection_witness :
    dW7.histories.find?
        (fun x => x.EventType = HistoryEventType.OrchestratorStarted
          ∧ dW7.decision_started_event.Timestamp < x.Timestamp)
      = some ⟨HistoryEventType.OrchestratorStarted, 7, false, none⟩ ∧
    ((Orchestrator.reset_timestamp dW7).decision_started_event
        = ⟨HistoryEventType.OrchestratorStarted, 7, false, none⟩ ∧
      (Orchestrator.reset_timestamp dW7).current_utc_datetime
        = some (⟨HistoryEventType.OrchestratorStarted, 7, false,
            none⟩ : HistoryEvent).Timestamp) :=
  ⟨by decide,
   (c7_reset_timestamp_selection dW7).2
     ⟨HistoryEventType.OrchestratorStarted, 7, false, none⟩ (by decide)⟩

/-- C6 witness: scenario 3's faulted call — the loop on it equals the loop
on its await-continuation thrown "boom", with time fields untouched. -/
theorem c6_fault_reinjection_witness :
    (YieldedValue.task faultedCall).isFaulted = true ∧
    (Orchestrator.driverLoop none dCtx3
        (Gen.yielded (YieldedValue.task faultedCall) kAwait) =
      Orchestrator.driverLoop none
        (Orchestrator.add_to_actions dCtx3 (YieldedValue.task faultedCall))
        (kAwait (GenInput.throw "boom")) ∧
    (Orchestrator.add_to_actions dCtx3
        (YieldedValue.task faultedCall)).current_utc_datetime
      = dCtx3.current_utc_datetime ∧
    (Orchestrator.add_to_actions dCtx3
        (YieldedValue.task faultedCall)).decision_started_event
      = dCtx3.decision_started_event) :=
  ⟨by decide,
   c6_fault_reinjection none dCtx3 (YieldedValue.task faultedCall) kAwait
     (by decide)⟩

/-- C8: within one invocation the simulated time is sourced from history
only.  If a context is time-sourced (its decision-started pointer is an
OrchestratorStarted event of its history and its current time, when
present, is that event's timestamp — as the parsed context is, last
conjunct), then after `_reset_timestamp` it is still time-sourced with the
same histories, the decision-started timestamp never decreases, and the
current simulated time, whenever present before and after the step, is
non-decreasing; `_add_to_actions` (the only other context update of a
non-suspending step) leaves time and history untouched.  No value ever
enters `current_utc_datetime` other than an OrchestratorStarted event's
timestamp — there is no wall-clock source in the driver. -/
theorem c8_monotonic_time (d : DurableOrchestrationContext)
    (h : timeFromHistory d) :
    timeFromHistory (Orchestrator.reset_timestamp d) ∧
    (Orchestrator.reset_timestamp d).histories = d.histories ∧
    d.decision_started_event.Timestamp
      ≤ (Orchestrator.reset_timestamp d).decision_started_event.Timestamp ∧
    (∀ t tn, d.current_utc_datetime = some t →
      (Orchestrator.reset_timestamp d).current_utc_datetime = some tn →
      t ≤ tn) ∧
    (∀ v, timeFromHistory (Orchestrator.add_to_actions d v) ∧
      (Orchestrator.add_to_actions d v).current_utc_datetime
        = d.current_utc_datetime) ∧
    (∀ b d0, DurableOrchestrationContext.parse b = Except.ok d0 →
      timeFromHistory d0) := by
  obtain ⟨hmem, htype, hcur⟩ := h
  refine ⟨?_, ?_, ?_, ?_, ?_, ?_⟩
  · unfold Orchestrator.reset_timestamp
    dsimp only
    split
    · exact ⟨hmem, htype, fun t ht => by simp at ht⟩
    · next e tail heq =>
      have he := heq ▸ List.mem_cons_self e tail
      have h2 := List.mem_filter.mp he
      have h3 := h2.2
      simp only [decide_eq_true_eq] at h3
      exact ⟨h2.1, h3.1, fun t ht => (Option.some.inj ht).symm⟩
  · unfold Orchestrator.reset_timestamp
    dsimp only
    split <;> rfl
  · unfold Orchestrator.reset_timestamp
    dsimp only
    split
    · exact Nat.le_refl _
    · next e tail heq =>
      have he := heq ▸ List.mem_cons_self e tail
      have h3 := (List.mem_filter.mp he).2
      simp only [decide_eq_true_eq] at h3
      exact Nat.le_of_lt h3.2
  · intro t tn ht htn
    unfold Orchestrator.reset_timestamp at htn
    dsimp only at htn
    split at htn
    · exact absurd htn (by simp)
    · next e tail heq =>
      have he := heq ▸ List.mem_cons_self e tail
      have h3 := (List.mem_filter.mp he).2
      simp only [decide_eq_true_eq] at h3
      rw [hcur t ht]
      rw [Option.some.inj htn] at h3
      exact Nat.le_of_lt h3.2
  · intro v
    cases v <;> exact ⟨⟨hmem, htype, hcur⟩, rfl⟩
  · intro b d0 hp
    cases b with
    | malformed => exact absurd hp (by simp [DurableOrchestrationContext.parse])
    | wellFormed hs =>
      simp only [DurableOrchestrationContext.parse] at hp
      cases hfind : hs.find?
          (fun e => e.EventType = HistoryEventType.OrchestratorStarted) with
      | none => rw [hfind] at hp; exact absurd hp (by simp)
      | some e =>
        rw [hfind] at hp
        have hd0 := Except.ok.inj hp
        have he1 := List.mem_of_find?_eq_some hfind
        have he2 := List.find?_some hfind
        simp only [decide_eq_true_eq] at he2
        rw [← hd0]
        exact ⟨he1, he2, fun t ht => (Option.some.inj ht).symm⟩

/-- C8 witness: the time-sourced context `dW7` stays time-sourced after
`_reset_timestamp` and its decision timestamp does not decrease. -/
theorem c8_monotonic_time_witness :
    timeFromHistory dW7 ∧
    timeFromHistory (Orchestrator.reset_timestamp dW7) ∧
    dW7.decision_started_event.Timestamp
      ≤ (Orchestrator.reset_timestamp dW7).decision_started_event.Timestamp :=
  ⟨⟨by decide, by decide, fun t ht => (Option.some.inj ht).symm⟩,
   (c8_monotonic_time dW7
     ⟨by decide, by decide, fun t ht => (Option.some.inj ht).symm⟩).1,
   (c8_monotonic_time dW7
     ⟨by decide, by decide, fun t ht => (Option.some.inj ht).symm⟩).2.2.1⟩

/-- C9 counterexample: an unparseable context string makes
`DurableOrchestrationContext(context_string)` raise BEFORE the `try` block
of `Orchestrator.handle`; the exception escapes and NO serialized decision
is returned (the call does not produce an `ok` result). -/
theorem c9_counterexample :
    (Orchestrator.new wf1).handle ContextBlob.malformed =
      Except.error "unparseable context string" ∧
    ((Orchestrator.new wf1).handle ContextBlob.malformed).toOption = none :=
  ⟨rfl, rfl⟩

/-- C9 (amended): for every context string that the context constructor
does parse, `Orchestrator.handle` returns a serialized decision for every
workflow function (the whole replay runs inside `try`), and a failure
signalled by the computation at any step — including reconciliation
mismatches surfaced as exceptions — is rendered in the decision as
`is_done = false` with `error` set, rather than crashing the engine.  A
context string that fails to parse, however, raises out of `handle` before
the `try` block and yields no decision (see the counterexample). -/
theorem c9_parse_ok_decision (o : Orchestrator) (s : ContextBlob)
    (d : DurableOrchestrationContext)
    (h : DurableOrchestrationContext.parse s = Except.ok d) :
    (∃ out, o.handle s = Except.ok out) ∧
    (∀ e, Orchestrator.driverLoop o.customStatus d (Gen.raised e) =
      { is_done := false, output := none, actions := d.actions,
        custom_status := o.customStatus, error := some e }) := by
  constructor
  · refine ⟨OrchestratorState.to_json_string
      (Orchestrator.driverLoop o.customStatus d (o.fn d)), ?_⟩
    unfold Orchestrator.handle Orchestrator.handleState
    rw [h]
    rfl
  · intro e
    rfl

/-- C9 witness: scenario 1's context parses, handle returns a serialized
decision, and a raised failure is rendered as an error decision. -/
theorem c9_parse_ok_decision_witness :
    DurableOrchestrationContext.parse ctxBlob1 =
      Except.ok ⟨[eStarted0], eStarted0, some 0, []⟩ ∧
    ((∃ out, (Orchestrator.new wf1).handle ctxBlob1 = Except.ok out) ∧
      (∀ e, Orchestrator.driverLoop (Orchestrator.new wf1).customStatus
          ⟨[eStarted0], eStarted0, some 0, []⟩ (Gen.raised e) =
        { is_done := false, output := none, actions := [],
          custom_status := (Orchestrator.new wf1).customStatus,
          error := some e })) :=
  ⟨rfl,
   c9_parse_ok_decision (Orchestrator.new wf1) ctxBlob1
     ⟨[eStarted0], eStarted0, some 0, []⟩ rfl⟩

/-- C10: determinism — for a fixed context string and a fixed workflow
function, any two `Orchestrator` instances holding that function (in
particular fresh instances made by `Orchestrator.create`, whose
`customStatus` always starts as `None`) return byte-identical serialized
decisions; the driver consults no wall clock or randomness, so `handle` is
a pure function of the pair (workflow, context string). -/
theorem c10_determinism (fn : Workflow) (s : ContextBlob)
    (o1 o2 : Orchestrator) (h1 : o1.fn = fn) (h2 : o2.fn = fn)
    (hcs : o1.customStatus = o2.customStatus) :
    o1.handle s = o2.handle s ∧
    Orchestrator.create fn s = (Orchestrator.new fn).handle s := by
  constructor
  · cases o1 with
    | mk f1 cs1 =>
      cases o2 with
      | mk f2 cs2 =>
        simp only at h1 h2 hcs
        subst h1
        subst h2
        subst hcs
        rfl
  · rfl

/-- C10 witness: two fresh instances over scenario 1 agree, and `create`
routes through a fresh instance's `handle`. -/
theorem c10_determinism_witness :
    (Orchestrator.new wf1).handle ctxBlob1
      = (Orchestrator.new wf1).handle ctxBlob1 ∧
    Orchestrator.create wf1 ctxBlob1 = (Orchestrator.new wf1).handle ctxBlob1 :=
  ⟨(c10_determinism wf1 ctxBlob1 (Orchestrator.new wf1)
      (Orchestrator.new wf1) rfl rfl rfl).1,
   (c10_determinism wf1 ctxBlob1 (Orchestrator.new wf1)
      (Orchestrator.new wf1) rfl rfl rfl).2⟩

end Durable
